import Mathlib

/-
  Verification of the NetDynamics entity replication subsystem
  (src/netdynamics.c) against its natural-language specification.

  The C program is shallowly embedded: machine integers become Nat with
  explicit `% 2^32` where uint32_t overflow matters, component arrays
  become functions `Nat → _`, and float quantities are idealised as exact
  rationals (the serialisation layer never computes on floats, and the
  interpolation claims are geometric).  The external random source
  (RayGetRandomValue) is modelled as an explicit stream parameter whose
  color component carries the documented range contract [0, 5].
-/

namespace NetDynamics

/-- NET_MAX_ENTITIES from netdynamics.c. -/
def NET_MAX_ENTITIES : Nat := 100000

/-- NET_MAX_ENTITY_SPAWN from netdynamics.c. -/
def NET_MAX_ENTITY_SPAWN : Nat := 10

/-- Modulus of C uint32_t arithmetic. -/
def U32_MOD : Nat := 2 ^ 32

/-- uint32_t addition. -/
def u32add (a b : Nat) : Nat := (a + b) % U32_MOD

/-- uint32_t subtraction (for b ≤ 2^32). -/
def u32sub (a b : Nat) : Nat := (a % U32_MOD + (U32_MOD - b)) % U32_MOD

/-- Raylib Color: four unsigned bytes. -/
structure RGBA where
  r : Nat
  g : Nat
  b : Nat
  a : Nat
deriving DecidableEq

/-- The fixed 6-entry color palette `colors` from netdynamics.c. -/
def colorsList : List RGBA :=
  [⟨250, 250, 250, 255⟩, ⟨255, 0, 90, 255⟩, ⟨94, 8, 255, 255⟩,
   ⟨0, 80, 255, 255⟩, ⟨0, 220, 255, 255⟩, ⟨255, 255, 14, 255⟩]

/-- The entry `colors[k]` for an in-range index, as the C indexing expression
    `colors[RayGetRandomValue(0, sizeof(colors)/sizeof(Color) - 1)]`. -/
def paletteColor (k : Fin 6) : RGBA := colorsList.get ⟨k.val, k.isLt⟩

/-- Pointwise update of an array modelled as a function. -/
def upd {α : Type} (f : Nat → α) (i : Nat) (v : α) : Nat → α :=
  fun j => if j = i then v else f j

/-- One sample of the external random source per spawned entity:
    two velocity draws RayGetRandomValue(-300, 300) and one palette index
    draw RayGetRandomValue(0, 5). -/
def Rng : Type := Nat → Int × Int × Fin 6

/-- The velocity written by the server spawn:
    `(float)RayGetRandomValue(-300, 300) / 60.0f` on each axis. -/
def velOf (v : Int × Int × Fin 6) : ℚ × ℚ := ((v.1 : ℚ) / 60, (v.2.1 : ℚ) / 60)

/-- Server-side entity store: `entity` counter plus the component arrays. -/
structure ServerState where
  count : Nat
  position : Nat → ℚ × ℚ
  speed : Nat → ℚ × ℚ
  color : Nat → RGBA

/-- ENTITIES_EXIST() — `color[0].a != 0`. -/
def entities_exist (s : ServerState) : Bool := (s.color 0).a != 0

/-- The body of the server `entity_spawn` for-loop, iterated `fuel` times
    with loop variable starting at `i`:
    `if (entity < NET_MAX_ENTITIES) { entity++; position[i] = …; … }`. -/
def spawn_loop (pos : ℚ × ℚ) (rng : Rng) : Nat → Nat → ServerState → ServerState
  | _, 0, s => s
  | i, fuel + 1, s =>
      spawn_loop pos rng (i + 1) fuel
        (if s.count < NET_MAX_ENTITIES then
          { count := s.count + 1
            position := upd s.position i pos
            speed := upd s.speed i (velOf (rng i))
            color := upd s.color i (paletteColor (rng i).2.2) }
        else s)

/-- Server `entity_spawn(positionComponent, quantity)`:
    `entities = entity + quantity` in uint32 arithmetic, then the for-loop
    runs for `i = entity; i < entities`, i.e. `entities - entity` times. -/
def entity_spawn (s : ServerState) (pos : ℚ × ℚ) (quantity : Nat) (rng : Rng) :
    ServerState :=
  spawn_loop pos rng s.count (u32add s.count quantity - s.count) s

/-- Server `entity_destroy(entityLocal)`:
    `entity = entityLocal; color[entityLocal].a = 0`. -/
def entity_destroy (s : ServerState) (k : Nat) : ServerState :=
  { s with
    count := k
    color := upd s.color k { s.color k with a := 0 } }

/-- Initial server store: `entity = 0`, arrays zeroed by je_calloc. -/
def server_init : ServerState :=
  { count := 0
    position := fun _ => (0, 0)
    speed := fun _ => (0, 0)
    color := fun _ => ⟨0, 0, 0, 0⟩ }

/-- Client-side mirror store: the same component arrays plus the
    interpolation-target array `destination`. -/
structure ClientState where
  count : Nat
  position : Nat → ℚ × ℚ
  speed : Nat → ℚ × ℚ
  color : Nat → RGBA
  destination : Nat → ℚ × ℚ

/-- Client `entity_spawn(entityRemote, positionComponent, speedComponent,
    colorComponent)`: `entity = entityRemote` and the three component
    writes; `destination` is untouched and there is no capacity check. -/
def entity_spawn_client (s : ClientState) (id : Nat) (pos vel : ℚ × ℚ)
    (col : RGBA) : ClientState :=
  { s with
    count := id
    position := upd s.position id pos
    speed := upd s.speed id vel
    color := upd s.color id col }

/-- Client `entity_update(entityRemote, positionComponent, speedComponent)`:
    `destination[entityRemote] = positionComponent;
     speed[entityRemote] = speedComponent`. -/
def entity_update (s : ClientState) (id : Nat) (pos vel : ℚ × ℚ) :
    ClientState :=
  { s with
    destination := upd s.destination id pos
    speed := upd s.speed id vel }

/-- Client `entity_flush()`: `entity = 0` followed by four
    `memset(array, 0, sizeof(element))` calls — each zeroes exactly
    `sizeof(Vector2)` (resp. `sizeof(Color)`) bytes, i.e. element 0 only. -/
def entity_flush (s : ClientState) : ClientState :=
  { count := 0
    position := upd s.position 0 (0, 0)
    speed := upd s.speed 0 (0, 0)
    color := upd s.color 0 ⟨0, 0, 0, 0⟩
    destination := upd s.destination 0 (0, 0) }

-- Wire records and the binn list codec

/-- The payload of a server→client Spawn message. -/
structure SpawnMsg where
  id : Nat
  pos : ℚ × ℚ
  vel : ℚ × ℚ
  r : Nat
  g : Nat
  b : Nat
deriving DecidableEq

/-- The payload of a Move message. -/
structure MoveMsg where
  id : Nat
  pos : ℚ × ℚ
  vel : ℚ × ℚ
deriving DecidableEq

/-- The payload of a Destroy message. -/
structure DestroyMsg where
  id : Nat
deriving DecidableEq

/-- One element of a binn list: the typed values the program appends
    (uint8, uint32, float, blob). -/
inductive BinnValue
  | vu8 (n : Nat)
  | vu32 (n : Nat)
  | vfloat (x : ℚ)
  | vblob (bytes : List Nat)
deriving DecidableEq

/-- Reader `binn_list_uint8(data, pos)` — 1-based position, 0 on absence or
    type mismatch. -/
def binn_list_uint8 (l : List BinnValue) (pos : Nat) : Nat :=
  match l.get? (pos - 1) with
  | some (.vu8 n) => n
  | _ => 0

/-- Reader `binn_list_uint32(data, pos)`. -/
def binn_list_uint32 (l : List BinnValue) (pos : Nat) : Nat :=
  match l.get? (pos - 1) with
  | some (.vu32 n) => n
  | _ => 0

/-- Reader `binn_list_float(data, pos)`. -/
def binn_list_float (l : List BinnValue) (pos : Nat) : ℚ :=
  match l.get? (pos - 1) with
  | some (.vfloat x) => x
  | _ => 0

/-- The optional redundancy blob: appended only when
    `settings.redundantBytes > 0`. -/
def padTail (pad : List Nat) : List BinnValue :=
  if 0 < pad.length then [.vblob pad] else []

/-- The binn list built by `message_send_to_all` / `message_send` for
    NET_MESSAGE_SPAWN: kind byte, id, position floats, speed floats,
    r, g, b, then the optional blob. -/
def encode_spawn (m : SpawnMsg) (pad : List Nat) : List BinnValue :=
  [.vu8 0xA, .vu32 m.id, .vfloat m.pos.1, .vfloat m.pos.2,
   .vfloat m.vel.1, .vfloat m.vel.2, .vu8 m.r, .vu8 m.g, .vu8 m.b]
  ++ padTail pad

/-- The binn list built for NET_MESSAGE_MOVE. -/
def encode_move (m : MoveMsg) (pad : List Nat) : List BinnValue :=
  [.vu8 0xB, .vu32 m.id, .vfloat m.pos.1, .vfloat m.pos.2,
   .vfloat m.vel.1, .vfloat m.vel.2]
  ++ padTail pad

/-- The binn list built for NET_MESSAGE_DESTROY. -/
def encode_destroy (m : DestroyMsg) (pad : List Nat) : List BinnValue :=
  [.vu8 0xC, .vu32 m.id] ++ padTail pad

/-- The fields `message_receive` reads for a Spawn message
    (client branch, positions 2–9). -/
def decode_spawn (l : List BinnValue) : SpawnMsg :=
  { id := binn_list_uint32 l 2
    pos := (binn_list_float l 3, binn_list_float l 4)
    vel := (binn_list_float l 5, binn_list_float l 6)
    r := binn_list_uint8 l 7
    g := binn_list_uint8 l 8
    b := binn_list_uint8 l 9 }

/-- The fields `message_receive` reads for a Move message
    (positions 2–6). -/
def decode_move (l : List BinnValue) : MoveMsg :=
  { id := binn_list_uint32 l 2
    pos := (binn_list_float l 3, binn_list_float l 4)
    vel := (binn_list_float l 5, binn_list_float l 6) }

/-- The field `message_receive` reads for a Destroy message (position 2). -/
def decode_destroy (l : List BinnValue) : DestroyMsg :=
  { id := binn_list_uint32 l 2 }

-- Server message production (main loop)

/-- The Spawn payload `message_send` / `message_send_to_all` builds for a
    given index: the current contents of the component arrays at that
    index (r, g, b bytes only; alpha is not sent). -/
def spawn_message (s : ServerState) (i : Nat) : SpawnMsg :=
  { id := i
    pos := s.position i
    vel := s.speed i
    r := (s.color i).r
    g := (s.color i).g
    b := (s.color i).b }

/-- The late-join snapshot (main, ENET_EVENT_TYPE_CONNECT):
    `if (ENTITIES_EXIST()) for (i = 0; i <= entity; i++) message_send(…SPAWN, &i)`. -/
def snapshot_messages (s : ServerState) : List SpawnMsg :=
  if entities_exist s then (List.range (s.count + 1)).map (spawn_message s)
  else []

/-- The post-spawn reliable broadcast (main, Spawn section):
    `for (i = entity - NET_MAX_ENTITY_SPAWN; i <= entity; i++)
       message_send_to_all(…SPAWN, &i)` with uint32 loop bounds. -/
def spawn_broadcast_messages (s : ServerState) : List SpawnMsg :=
  if u32sub s.count NET_MAX_ENTITY_SPAWN ≤ s.count then
    (List.range' (u32sub s.count NET_MAX_ENTITY_SPAWN)
      (s.count - u32sub s.count NET_MAX_ENTITY_SPAWN + 1)).map (spawn_message s)
  else []

-- Client batch application (C8)

/-- The client receive loop applied to a list of Spawn messages: each is
    handled by `entity_spawn` with the explicit id/position/velocity and
    the color reconstructed with alpha 255 (message_receive, client
    NET_MESSAGE_SPAWN branch). -/
def client_apply_spawns (s : ClientState) (msgs : List SpawnMsg) : ClientState :=
  msgs.foldl (fun st m => entity_spawn_client st m.id m.pos m.vel ⟨m.r, m.g, m.b, 255⟩) s

/-- The ids of the Spawn messages the server broadcasts after creating a
    batch of Q entities starting at count C (loop from C to C + Q
    inclusive — the generalisation of the `entity - NET_MAX_ENTITY_SPAWN
    … <= entity` loop to batch size Q). -/
def server_batch_ids (C Q : Nat) : List Nat := List.range' C (Q + 1)

-- Client interpolation (C4)

/-- Squared distance `toVectorX*toVectorX + toVectorY*toVectorY`. -/
def sqDist (p d : ℚ × ℚ) : ℚ :=
  (d.1 - p.1) * (d.1 - p.1) + (d.2 - p.2) * (d.2 - p.2)

/-- The per-frame step distance `maxDistanceDelta * movementSpeed * deltaTime`. -/
def stepOf (maxDistanceDelta movementSpeed deltaTime : ℚ) : ℚ :=
  maxDistanceDelta * movementSpeed * deltaTime

/-- Client `entity_move`: snap to the destination when the squared
    distance is zero or at most step², otherwise advance along the unit
    vector toward the destination.  `dist` stands for the value computed
    by `sqrtf(squareDistance)`; theorems constrain it by the square-root
    contract `dist * dist = squareDistance ∧ 0 ≤ dist`. -/
def entity_move_client (p d : ℚ × ℚ)
    (maxDistanceDelta movementSpeed deltaTime dist : ℚ) : ℚ × ℚ :=
  let toVectorX := d.1 - p.1
  let toVectorY := d.2 - p.2
  let squareDistance := toVectorX * toVectorX + toVectorY * toVectorY
  let step := maxDistanceDelta * movementSpeed * deltaTime
  if squareDistance = 0 ∨ (0 ≤ step ∧ squareDistance ≤ step * step) then d
  else (p.1 + toVectorX / dist * step, p.2 + toVectorY / dist * step)

-- Send-rate throttle (C5)

/-- One frame of the server timer/broadcast throttle under the claim's
    preconditions (a peer connected and entities existing):
    `sendTime += deltaTime; if (sendTime >= sendInterval)
     { sendTime -= sendInterval; flush }` — at most one flush per frame. -/
def throttle_step (interval acc dt : ℚ) : ℚ × Bool :=
  let t := acc + dt
  if interval ≤ t then (t - interval, true) else (t, false)

/-- Folding the throttle over a list of frame delta times, returning the
    final accumulator and the number of Move-broadcast flushes. -/
def throttle_run (interval : ℚ) : ℚ → List ℚ → ℚ × Nat
  | acc, [] => (acc, 0)
  | acc, dt :: rest =>
      let fr := throttle_step interval acc dt
      let tl := throttle_run interval fr.1 rest
      (tl.1, (if fr.2 then 1 else 0) + tl.2)

-- Server operations and reachability (C10)

/-- One server-side mutation of the entity store as driven by the main
    loop: a spawn trigger (always batch NET_MAX_ENTITY_SPAWN) or a
    destroy trigger (guarded by ENTITIES_EXIST(), truncating by
    `entity - NET_MAX_ENTITY_SPAWN` in uint32 arithmetic). -/
inductive ServerOp
  | spawn (pos : ℚ × ℚ) (rng : Rng)
  | destroy

/-- The main-loop handling of one server operation. -/
def server_step (s : ServerState) (op : ServerOp) : ServerState :=
  match op with
  | .spawn pos rng => entity_spawn s pos NET_MAX_ENTITY_SPAWN rng
  | .destroy =>
      if entities_exist s then entity_destroy s (u32sub s.count NET_MAX_ENTITY_SPAWN)
      else s

/-- The server store after a sequence of operations from the initial
    zeroed state. -/
def server_run (ops : List ServerOp) : ServerState :=
  ops.foldl server_step server_init

/-- The server-state invariant of claim C10. -/
def ServerInv (s : ServerState) : Prop :=
  s.count % NET_MAX_ENTITY_SPAWN = 0 ∧ s.count ≤ NET_MAX_ENTITIES ∧
  (entities_exist s = true ↔ 0 < s.count)

-- Theorems

/-- C2: decoding the binn list produced by encoding any Spawn, Move, or
    Destroy record yields field-for-field identical values — entity id,
    every position/velocity float, and every color byte — whether or not
    the optional padding blob is appended. -/
theorem C2_roundtrip (sm : SpawnMsg) (mm : MoveMsg) (dm : DestroyMsg)
    (pad : List Nat) :
    decode_spawn (encode_spawn sm pad) = sm ∧
    decode_move (encode_move mm pad) = mm ∧
    decode_destroy (encode_destroy dm pad) = dm := by
  obtain ⟨i1, ⟨px, py⟩, ⟨vx, vy⟩, cr, cg, cb⟩ := sm
  obtain ⟨i2, ⟨px2, py2⟩, ⟨vx2, vy2⟩⟩ := mm
  obtain ⟨i3⟩ := dm
  refine ⟨?_, ?_, ?_⟩ <;> cases pad <;> rfl

/-- C9: the client Move handler stores the received position into
    `destination[id]` and the received velocity into `speed[id]`, and
    leaves the rendered position array, the color array, and the entity
    count unchanged. -/
theorem C9_move_handler (s : ClientState) (id : Nat) (pos vel : ℚ × ℚ) :
    (entity_update s id pos vel).destination id = pos ∧
    (entity_update s id pos vel).speed id = vel ∧
    (entity_update s id pos vel).position = s.position ∧
    (entity_update s id pos vel).color = s.color ∧
    (entity_update s id pos vel).count = s.count := by
  refine ⟨?_, ?_, rfl, rfl, rfl⟩ <;> simp [entity_update, upd]

/-- C7: after `entity_destroy(k)` with `k ≤ count`, the count equals `k`,
    the color alpha at the truncation boundary index `k` is the tombstone
    value 0, and the existence probe returns whether slot 0's alpha is
    nonzero. -/
theorem C7_truncate (s : ServerState) (k : Nat) (hk : k ≤ s.count) :
    (entity_destroy s k).count = k ∧
    ((entity_destroy s k).color k).a = 0 ∧
    (entities_exist (entity_destroy s k) = true ↔
      ((entity_destroy s k).color 0).a ≠ 0) := by
  refine ⟨rfl, ?_, ?_⟩
  · simp [entity_destroy, upd]
  · simp [entities_exist]

/-- C7 witness: instantiation at the zeroed store and `k = 0`. -/
theorem C7_truncate_witness :
    (entity_destroy server_init 0).count = 0 ∧
    ((entity_destroy server_init 0).color 0).a = 0 ∧
    (entities_exist (entity_destroy server_init 0) = true ↔
      ((entity_destroy server_init 0).color 0).a ≠ 0) :=
  C7_truncate server_init 0 (Nat.le_refl 0)

/-- A client store in which entity 1 has nonzero components: the input on
    which `entity_flush` fails to clear the arrays. -/
def flush_failing_state : ClientState :=
  { count := 2
    position := upd (fun _ => (0, 0)) 1 (5, 5)
    speed := upd (fun _ => (0, 0)) 1 (7, 7)
    color := upd (fun _ => ⟨0, 0, 0, 0⟩) 1 ⟨1, 2, 3, 255⟩
    destination := upd (fun _ => (0, 0)) 1 (9, 9) }

/-- C6: evaluation of `entity_flush` at the failing input — the count is
    zeroed, but element 1 of the position, speed, color, and destination
    arrays keeps its old nonzero value, because each memset clears only
    `sizeof(element)` bytes, i.e. slot 0. -/
theorem C6_flush_first_slot_only :
    (entity_flush flush_failing_state).count = 0 ∧
    (entity_flush flush_failing_state).position 1 = (5, 5) ∧
    (entity_flush flush_failing_state).speed 1 = (7, 7) ∧
    (entity_flush flush_failing_state).color 1 = ⟨1, 2, 3, 255⟩ ∧
    (entity_flush flush_failing_state).destination 1 = (9, 9) ∧
    ((5 : ℚ), (5 : ℚ)) ≠ ((0 : ℚ), (0 : ℚ)) := by
  refine ⟨rfl, rfl, rfl, rfl, rfl, by decide⟩

/-- Auxiliary: the count after applying a list of Spawn messages is the
    last message id (or the prior count when the list is empty). -/
theorem client_apply_spawns_count (msgs : List SpawnMsg) (s : ClientState) :
    (client_apply_spawns s msgs).count = (msgs.map SpawnMsg.id).getLastD s.count := by
  induction msgs generalizing s with
  | nil => rfl
  | cons m rest ih =>
      show (client_apply_spawns (entity_spawn_client s m.id m.pos m.vel
        ⟨m.r, m.g, m.b, 255⟩) rest).count = _
      rw [ih, List.map_cons, List.getLastD_cons]
      rfl

/-- C8: applying a server spawn batch of quantity `Q` (arriving as the
    Spawn messages the server broadcasts for a batch created at count
    `C = s.count`, with ids `C … C + Q`) to a client mirror with current
    count `C` yields count exactly `C + Q`, with no cap against the
    capacity. -/
theorem C8_client_batch (s : ClientState) (Q : Nat) (msgs : List SpawnMsg)
    (h : msgs.map SpawnMsg.id = server_batch_ids s.count Q) :
    (client_apply_spawns s msgs).count = s.count + Q := by
  rw [client_apply_spawns_count, h, server_batch_ids, List.range'_concat]
  simp

/-- A client mirror near capacity, for the C8 witness. -/
def c8_state : ClientState :=
  { count := 99999
    position := fun _ => (0, 0)
    speed := fun _ => (0, 0)
    color := fun _ => ⟨0, 0, 0, 0⟩
    destination := fun _ => (0, 0) }

/-- A concrete server batch of quantity 2 starting at count 99999, whose
    resulting client count 100001 exceeds NET_MAX_ENTITIES. -/
def c8_msgs : List SpawnMsg :=
  [⟨99999, (1, 1), (0, 0), 1, 2, 3⟩,
   ⟨100000, (2, 2), (0, 0), 4, 5, 6⟩,
   ⟨100001, (3, 3), (0, 0), 7, 8, 9⟩]

/-- C8 witness: at the concrete batch, the hypothesis holds and the
    resulting count is 100001 — strictly beyond the capacity 100000. -/
theorem C8_client_batch_witness :
    c8_msgs.map SpawnMsg.id = server_batch_ids c8_state.count 2 ∧
    (client_apply_spawns c8_state c8_msgs).count = c8_state.count + 2 ∧
    NET_MAX_ENTITIES < c8_state.count + 2 :=
  ⟨by decide, C8_client_batch c8_state 2 c8_msgs (by decide), by decide⟩

/-- Unfolding of the client interpolation step. -/
theorem entity_move_client_eq (p d : ℚ × ℚ) (mdd ms dt dist : ℚ) :
    entity_move_client p d mdd ms dt dist =
      if sqDist p d = 0 ∨ (0 ≤ stepOf mdd ms dt ∧
          sqDist p d ≤ stepOf mdd ms dt * stepOf mdd ms dt) then d
      else (p.1 + (d.1 - p.1) / dist * stepOf mdd ms dt,
            p.2 + (d.2 - p.2) / dist * stepOf mdd ms dt) := rfl

/-- C4: for the client interpolation step with positive per-frame step
    distance `s` and `dist` the square root of the remaining squared
    distance: when the squared distance is at most `s²` (including
    distance zero) the step sets the position exactly to the destination;
    otherwise the step leaves the new squared distance exactly
    `(dist − s)²` with `0 < dist − s < dist` — the distance to the target
    strictly decreases and the target is never overshot. -/
theorem C4_interpolation (p d : ℚ × ℚ) (mdd ms dt dist : ℚ)
    (hsq : dist * dist = sqDist p d) (hd0 : 0 ≤ dist)
    (hs : 0 < stepOf mdd ms dt) :
    (sqDist p d ≤ stepOf mdd ms dt * stepOf mdd ms dt →
      entity_move_client p d mdd ms dt dist = d) ∧
    (stepOf mdd ms dt * stepOf mdd ms dt < sqDist p d →
      sqDist (entity_move_client p d mdd ms dt dist) d
        = (dist - stepOf mdd ms dt) * (dist - stepOf mdd ms dt) ∧
      0 < dist - stepOf mdd ms dt ∧
      dist - stepOf mdd ms dt < dist) := by
  have hse : 0 ≤ stepOf mdd ms dt := le_of_lt hs
  constructor
  · intro h
    rw [entity_move_client_eq]
    exact if_pos (Or.inr ⟨hse, h⟩)
  · intro h
    have hsqpos : 0 < sqDist p d := lt_of_le_of_lt (mul_nonneg hse hse) h
    have hdne : dist ≠ 0 := by
      intro h0
      rw [h0, mul_zero] at hsq
      exact absurd hsq (ne_of_lt hsqpos)
    have hdpos : 0 < dist := lt_of_le_of_ne hd0 (Ne.symm hdne)
    have hsq' : dist * dist = (d.1 - p.1) * (d.1 - p.1) +
        (d.2 - p.2) * (d.2 - p.2) := hsq
    have h' : stepOf mdd ms dt * stepOf mdd ms dt < dist * dist := by
      rw [hsq]; exact h
    have hlt : stepOf mdd ms dt < dist := by nlinarith
    have hcond : ¬(sqDist p d = 0 ∨ (0 ≤ stepOf mdd ms dt ∧
        sqDist p d ≤ stepOf mdd ms dt * stepOf mdd ms dt)) := by
      push_neg
      exact ⟨ne_of_gt hsqpos, fun _ => h⟩
    rw [entity_move_client_eq, if_neg hcond]
    refine ⟨?_, by linarith, by linarith⟩
    have e1 : d.1 - (p.1 + (d.1 - p.1) / dist * stepOf mdd ms dt)
        = (d.1 - p.1) * (dist - stepOf mdd ms dt) / dist := by
      field_simp
      ring
    have e2 : d.2 - (p.2 + (d.2 - p.2) / dist * stepOf mdd ms dt)
        = (d.2 - p.2) * (dist - stepOf mdd ms dt) / dist := by
      field_simp
      ring
    show (d.1 - (p.1 + (d.1 - p.1) / dist * stepOf mdd ms dt)) *
        (d.1 - (p.1 + (d.1 - p.1) / dist * stepOf mdd ms dt)) +
        (d.2 - (p.2 + (d.2 - p.2) / dist * stepOf mdd ms dt)) *
        (d.2 - (p.2 + (d.2 - p.2) / dist * stepOf mdd ms dt)) = _
    rw [e1, e2, div_mul_div_comm, div_mul_div_comm, div_add_div_same,
        div_eq_iff (mul_ne_zero hdne hdne)]
    linear_combination (-((dist - stepOf mdd ms dt) *
      (dist - stepOf mdd ms dt))) * hsq'

/-- C4 witness: start (0, 0), destination (3, 4), distance 5, step 1 —
    the snap branch does not fire and the distance drops from 5 to 4. -/
theorem C4_interpolation_witness :
    ((5 : ℚ) * 5 = sqDist (0, 0) (3, 4) ∧ (0 : ℚ) ≤ 5 ∧ 0 < stepOf 1 1 1) ∧
    ((sqDist ((0 : ℚ), (0 : ℚ)) ((3 : ℚ), (4 : ℚ)) ≤ stepOf 1 1 1 * stepOf 1 1 1 →
        entity_move_client (0, 0) (3, 4) 1 1 1 5 = (3, 4)) ∧
     (stepOf 1 1 1 * stepOf 1 1 1 < sqDist ((0 : ℚ), (0 : ℚ)) ((3 : ℚ), (4 : ℚ)) →
        sqDist (entity_move_client (0, 0) (3, 4) 1 1 1 5) (3, 4)
          = ((5 : ℚ) - stepOf 1 1 1) * ((5 : ℚ) - stepOf 1 1 1) ∧
        (0 : ℚ) < 5 - stepOf 1 1 1 ∧ (5 : ℚ) - stepOf 1 1 1 < 5)) :=
  ⟨⟨by norm_num [sqDist], by norm_num, by norm_num [stepOf]⟩,
   C4_interpolation (0, 0) (3, 4) 1 1 1 5 (by norm_num [sqDist])
     (by norm_num) (by norm_num [stepOf])⟩

/-- The quantity `sendInterval = 1.0f / settings.sendRate`. -/
def sendIntervalOf (sendRate : ℚ) : ℚ := 1 / sendRate

/-- Auxiliary: with every frame delta in `[0, interval]` and the
    accumulator in `[0, interval)`, the flush count over the remaining
    frames is the floor of the total accumulated time over the interval,
    and the accumulator stays in `[0, interval)`. -/
theorem throttle_run_floor (interval : ℚ) (hpos : 0 < interval) :
    ∀ (dts : List ℚ) (acc : ℚ), 0 ≤ acc → acc < interval →
      (∀ dt ∈ dts, 0 ≤ dt ∧ dt ≤ interval) →
      ((throttle_run interval acc dts).2 : ℤ) = ⌊(acc + dts.sum) / interval⌋ := by
  intro dts
  induction dts with
  | nil =>
      intro acc h0 h1 _
      have : ⌊acc / interval⌋ = 0 := by
        rw [Int.floor_eq_zero_iff]
        constructor
        · exact div_nonneg h0 (le_of_lt hpos)
        · rw [div_lt_one hpos]; exact h1
      simpa [throttle_run] using this.symm
  | cons dt rest ih =>
      intro acc h0 h1 hall
      obtain ⟨hdt0, hdt1⟩ := hall dt (List.mem_cons_self dt rest)
      have hrest : ∀ x ∈ rest, 0 ≤ x ∧ x ≤ interval :=
        fun x hx => hall x (List.mem_cons_of_mem dt hx)
      by_cases hge : interval ≤ acc + dt
      · have hstep : throttle_step interval acc dt = (acc + dt - interval, true) := by
          simp [throttle_step, hge]
        have h0' : 0 ≤ acc + dt - interval := by linarith
        have h1' : acc + dt - interval < interval := by linarith
        have := ih (acc + dt - interval) h0' h1' hrest
        show ((throttle_run interval acc (dt :: rest)).2 : ℤ) = _
        rw [throttle_run, hstep]
        push_cast
        rw [this]
        have harg : (acc + dt - interval + rest.sum) / interval
            = (acc + (dt :: rest).sum) / interval - 1 := by
          rw [List.sum_cons]
          field_simp
          ring
        rw [harg, Int.floor_sub_one]
        simp
      · have hstep : throttle_step interval acc dt = (acc + dt, false) := by
          simp [throttle_step, hge]
        have h0' : 0 ≤ acc + dt := by linarith
        have h1' : acc + dt < interval := lt_of_not_le hge
        have := ih (acc + dt) h0' h1' hrest
        show ((throttle_run interval acc (dt :: rest)).2 : ℤ) = _
        rw [throttle_run, hstep]
        simpa [List.sum_cons, add_assoc] using this

/-- C5 (amended): with a peer connected and entities existing throughout
    the window, send rate `R > 0`, and every frame delta time in
    `[0, 1/R]`, the number of Move-broadcast flushes over the window
    equals `⌊T·R⌋` exactly, where `T` is the sum of the frame deltas.
    (The restriction to deltas at most the send interval is forced: the
    loop flushes at most once per frame, see the counterexample.) -/
theorem C5_amended (sendRate : ℚ) (dts : List ℚ) (hR : 0 < sendRate)
    (hdts : ∀ dt ∈ dts, 0 ≤ dt ∧ dt ≤ sendIntervalOf sendRate) :
    ((throttle_run (sendIntervalOf sendRate) 0 dts).2 : ℤ) = ⌊dts.sum * sendRate⌋ := by
  have hpos : 0 < sendIntervalOf sendRate := by
    rw [sendIntervalOf]
    exact div_pos one_pos hR
  have := throttle_run_floor (sendIntervalOf sendRate) hpos dts 0 le_rfl hpos hdts
  rw [this, zero_add, sendIntervalOf, div_div_eq_mul_div, div_one]

/-- C5 witness: rate 2 (interval 1/2), three frame deltas of 1/2 second:
    T = 3/2, and exactly ⌊(3/2) · 2⌋ = 3 flushes occur. -/
theorem C5_amended_witness :
    (0 : ℚ) < 2 ∧
    (∀ dt ∈ ([1/2, 1/2, 1/2] : List ℚ), 0 ≤ dt ∧ dt ≤ sendIntervalOf 2) ∧
    ((throttle_run (sendIntervalOf 2) 0 [1/2, 1/2, 1/2]).2 : ℤ)
      = ⌊([1/2, 1/2, 1/2] : List ℚ).sum * 2⌋ :=
  ⟨by norm_num,
   by
    intro dt hdt
    simp only [List.mem_cons, List.not_mem_nil, or_false] at hdt
    rcases hdt with rfl | rfl | rfl <;> norm_num [sendIntervalOf],
   C5_amended 2 [1/2, 1/2, 1/2] (by norm_num)
     (by
      intro dt hdt
      simp only [List.mem_cons, List.not_mem_nil, or_false] at hdt
      rcases hdt with rfl | rfl | rfl <;> norm_num [sendIntervalOf])⟩

/-- C5 counterexample to the claim as stated: rate 1 (interval 1) and
    four frames of 2 seconds each — T = 8, ⌊T·R⌋ = 8, but only 4 flushes
    occur (one per frame), which is not within one tick of 8. -/
theorem C5_counterexample :
    (throttle_run (sendIntervalOf 1) 0 [2, 2, 2, 2]).2 = 4 ∧
    ⌊(([2, 2, 2, 2] : List ℚ).sum * 1)⌋ = 8 ∧
    ¬(((⌊(([2, 2, 2, 2] : List ℚ).sum * 1)⌋ -
        ((throttle_run (sendIntervalOf 1) 0 [2, 2, 2, 2]).2 : ℤ)).natAbs) ≤ 1) := by
  have h1 : (throttle_run (sendIntervalOf 1) 0 [2, 2, 2, 2]).2 = 4 := by
    norm_num [throttle_run, throttle_step, sendIntervalOf]
  have h2 : ⌊(([2, 2, 2, 2] : List ℚ).sum * 1)⌋ = 8 := by
    norm_num
  refine ⟨h1, h2, ?_⟩
  rw [h1, h2]
  decide

-- Spawn-loop lemmas

/-- A store already at capacity is left unchanged by the spawn loop. -/
theorem spawn_loop_saturated (pos : ℚ × ℚ) (rng : Rng) :
    ∀ (fuel i : Nat) (s : ServerState), NET_MAX_ENTITIES ≤ s.count →
      spawn_loop pos rng i fuel s = s := by
  intro fuel
  induction fuel with
  | zero => intro i s _; rfl
  | succ fuel ih =>
      intro i s h
      rw [spawn_loop, if_neg (not_lt.mpr h)]
      exact ih (i + 1) s h

/-- Count after the spawn loop: `min (i + fuel) NET_MAX_ENTITIES` when the
    loop variable starts at the current count. -/
theorem spawn_loop_count (pos : ℚ × ℚ) (rng : Rng) :
    ∀ (fuel i : Nat) (s : ServerState), s.count = i → i ≤ NET_MAX_ENTITIES →
      (spawn_loop pos rng i fuel s).count = min (i + fuel) NET_MAX_ENTITIES := by
  intro fuel
  induction fuel with
  | zero =>
      intro i s hc hle
      show s.count = _
      omega
  | succ fuel ih =>
      intro i s hc hle
      by_cases hlt : i < NET_MAX_ENTITIES
      · rw [spawn_loop, if_pos (by rw [hc]; exact hlt)]
        rw [ih (i + 1)
          { count := s.count + 1
            position := upd s.position i pos
            speed := upd s.speed i (velOf (rng i))
            color := upd s.color i (paletteColor (rng i).2.2) }
          (by simp [hc]) (by omega)]
        omega
      · rw [spawn_loop, if_neg (by rw [hc]; exact hlt)]
        rw [spawn_loop_saturated pos rng fuel (i + 1) s (by omega)]
        omega

/-- Indices outside `[i, i + fuel)` are untouched by the spawn loop. -/
theorem spawn_loop_frame (pos : ℚ × ℚ) (rng : Rng) :
    ∀ (fuel i : Nat) (s : ServerState) (j : Nat), j < i ∨ i + fuel ≤ j →
      (spawn_loop pos rng i fuel s).position j = s.position j ∧
      (spawn_loop pos rng i fuel s).speed j = s.speed j ∧
      (spawn_loop pos rng i fuel s).color j = s.color j := by
  intro fuel
  induction fuel with
  | zero => intro i s j _; exact ⟨rfl, rfl, rfl⟩
  | succ fuel ih =>
      intro i s j hj
      have hji : j ≠ i := by omega
      rw [spawn_loop]
      by_cases hlt : s.count < NET_MAX_ENTITIES
      · rw [if_pos hlt]
        obtain ⟨h1, h2, h3⟩ := ih (i + 1)
          { count := s.count + 1
            position := upd s.position i pos
            speed := upd s.speed i (velOf (rng i))
            color := upd s.color i (paletteColor (rng i).2.2) } j (by omega)
        exact ⟨h1.trans (by simp [upd, hji]), h2.trans (by simp [upd, hji]),
               h3.trans (by simp [upd, hji])⟩
      · rw [if_neg hlt]
        exact ih (i + 1) s j (by omega)

/-- Indices written by the spawn loop receive the origin position, the
    rng-derived velocity, and the rng-selected palette color. -/
theorem spawn_loop_written (pos : ℚ × ℚ) (rng : Rng) :
    ∀ (fuel i : Nat) (s : ServerState) (j : Nat), s.count = i →
      i ≤ j → j < i + fuel → j < NET_MAX_ENTITIES →
      (spawn_loop pos rng i fuel s).position j = pos ∧
      (spawn_loop pos rng i fuel s).speed j = velOf (rng j) ∧
      (spawn_loop pos rng i fuel s).color j = paletteColor (rng j).2.2 := by
  intro fuel
  induction fuel with
  | zero => intro i s j _ h1 h2 _; omega
  | succ fuel ih =>
      intro i s j hc hij hjf hjM
      have hiM : i < NET_MAX_ENTITIES := lt_of_le_of_lt hij hjM
      rw [spawn_loop, if_pos (by rw [hc]; exact hiM)]
      rcases Nat.eq_or_lt_of_le hij with heq | hlt
      · subst heq
        obtain ⟨h1, h2, h3⟩ := spawn_loop_frame pos rng fuel (i + 1)
          { count := s.count + 1
            position := upd s.position i pos
            speed := upd s.speed i (velOf (rng i))
            color := upd s.color i (paletteColor (rng i).2.2) } i (Or.inl (by omega))
        exact ⟨h1.trans (by simp [upd]), h2.trans (by simp [upd]),
               h3.trans (by simp [upd])⟩
      · exact ih (i + 1)
          { count := s.count + 1
            position := upd s.position i pos
            speed := upd s.speed i (velOf (rng i))
            color := upd s.color i (paletteColor (rng i).2.2) } j
          (by simp [hc]) hlt (by omega) hjM

/-- The `entity_spawn` count: `min (C + Q) NET_MAX_ENTITIES` in the absence of
    uint32 overflow. -/
theorem entity_spawn_count (s : ServerState) (pos : ℚ × ℚ) (Q : Nat) (rng : Rng)
    (hcap : s.count ≤ NET_MAX_ENTITIES) (hof : s.count + Q < U32_MOD) :
    (entity_spawn s pos Q rng).count = min (s.count + Q) NET_MAX_ENTITIES := by
  have hadd : u32add s.count Q = s.count + Q := Nat.mod_eq_of_lt hof
  rw [entity_spawn, hadd, Nat.add_sub_cancel_left,
    spawn_loop_count pos rng Q s.count s rfl hcap]

/-- The function `entity_spawn` leaves indices outside `[C, C + Q)` untouched. -/
theorem entity_spawn_frame (s : ServerState) (pos : ℚ × ℚ) (Q : Nat) (rng : Rng)
    (hof : s.count + Q < U32_MOD) (j : Nat) (hj : j < s.count ∨ s.count + Q ≤ j) :
    (entity_spawn s pos Q rng).position j = s.position j ∧
    (entity_spawn s pos Q rng).speed j = s.speed j ∧
    (entity_spawn s pos Q rng).color j = s.color j := by
  have hadd : u32add s.count Q = s.count + Q := Nat.mod_eq_of_lt hof
  rw [entity_spawn, hadd, Nat.add_sub_cancel_left]
  exact spawn_loop_frame pos rng Q s.count s j hj

/-- The function `entity_spawn` initializes every created index. -/
theorem entity_spawn_written (s : ServerState) (pos : ℚ × ℚ) (Q : Nat) (rng : Rng)
    (hof : s.count + Q < U32_MOD) (j : Nat) (h1 : s.count ≤ j)
    (h2 : j < s.count + Q) (h3 : j < NET_MAX_ENTITIES) :
    (entity_spawn s pos Q rng).position j = pos ∧
    (entity_spawn s pos Q rng).speed j = velOf (rng j) ∧
    (entity_spawn s pos Q rng).color j = paletteColor (rng j).2.2 := by
  have hadd : u32add s.count Q = s.count + Q := Nat.mod_eq_of_lt hof
  rw [entity_spawn, hadd, Nat.add_sub_cancel_left]
  exact spawn_loop_written pos rng Q s.count s j rfl h1 h2 h3

/-- Every palette color is an entry of the 6-entry palette list. -/
theorem paletteColor_mem (k : Fin 6) : paletteColor k ∈ colorsList :=
  colorsList.get_mem k.val k.isLt

/-- C3: a server spawn batch of quantity Q at count C ≤ 100000 (and with
    C + Q representable in uint32) yields count exactly
    `min (C + Q) NET_MAX_ENTITIES` — overflowing entities are silently
    dropped — and every created entity is initialized with the origin
    position, the velocity derived from the random draws, and a color
    from the fixed 6-entry palette. -/
theorem C3_spawn_batch (s : ServerState) (pos : ℚ × ℚ) (Q : Nat) (rng : Rng)
    (hcap : s.count ≤ NET_MAX_ENTITIES) (hof : s.count + Q < U32_MOD) :
    (entity_spawn s pos Q rng).count = min (s.count + Q) NET_MAX_ENTITIES ∧
    ∀ j, s.count ≤ j → j < min (s.count + Q) NET_MAX_ENTITIES →
      (entity_spawn s pos Q rng).position j = pos ∧
      (entity_spawn s pos Q rng).speed j = velOf (rng j) ∧
      (entity_spawn s pos Q rng).color j ∈ colorsList := by
  refine ⟨entity_spawn_count s pos Q rng hcap hof, ?_⟩
  intro j hj1 hj2
  obtain ⟨h1, h2, h3⟩ := entity_spawn_written s pos Q rng hof j hj1
    (by omega) (by omega)
  exact ⟨h1, h2, h3 ▸ paletteColor_mem _⟩

/-- A concrete random stream for witnesses: always draws (0, 0) for the
    velocity and palette index 0. -/
def rng0 : Rng := fun _ => (0, 0, (0 : Fin 6))

/-- C3 witness: spawning 3 entities at (1, 2) in the empty store yields
    count min(3, 100000) = 3 with each slot initialized. -/
theorem C3_spawn_batch_witness :
    server_init.count ≤ NET_MAX_ENTITIES ∧ server_init.count + 3 < U32_MOD ∧
    ((entity_spawn server_init (1, 2) 3 rng0).count
        = min (server_init.count + 3) NET_MAX_ENTITIES ∧
      ∀ j, server_init.count ≤ j → j < min (server_init.count + 3) NET_MAX_ENTITIES →
        (entity_spawn server_init (1, 2) 3 rng0).position j = (1, 2) ∧
        (entity_spawn server_init (1, 2) 3 rng0).speed j = velOf (rng0 j) ∧
        (entity_spawn server_init (1, 2) 3 rng0).color j ∈ colorsList) :=
  ⟨by norm_num [server_init, NET_MAX_ENTITIES],
   by norm_num [server_init, U32_MOD],
   C3_spawn_batch server_init (1, 2) 3 rng0
     (by norm_num [server_init, NET_MAX_ENTITIES])
     (by norm_num [server_init, U32_MOD])⟩

-- Server invariant (C10)

/-- Every palette entry has alpha 255. -/
theorem paletteColor_alpha (k : Fin 6) : (paletteColor k).a = 255 := by
  fin_cases k <;> rfl

/-- The literal values of the embedded constants, for arithmetic. -/
theorem const_values :
    NET_MAX_ENTITIES = 100000 ∧ NET_MAX_ENTITY_SPAWN = 10 ∧
    U32_MOD = 4294967296 := by
  refine ⟨rfl, rfl, ?_⟩
  norm_num [U32_MOD]

/-- One main-loop operation preserves the server invariant. -/
theorem server_step_inv (s : ServerState) (op : ServerOp) (h : ServerInv s) :
    ServerInv (server_step s op) := by
  obtain ⟨hM, hQ, hU⟩ := const_values
  obtain ⟨h10, hcap, hprobe⟩ := h
  cases op with
  | spawn pos rng =>
      show ServerInv (entity_spawn s pos NET_MAX_ENTITY_SPAWN rng)
      simp only [ServerInv, hM, hQ] at h10 hcap hprobe ⊢
      have hof : s.count + 10 < U32_MOD := by omega
      have hcnt := entity_spawn_count s pos 10 rng (by omega) hof
      rw [hM] at hcnt
      refine ⟨by rw [hcnt]; omega, by rw [hcnt]; omega, ?_⟩
      by_cases hc0 : s.count = 0
      · have hw := entity_spawn_written s pos 10 rng hof 0
          (by omega) (by omega) (by rw [hM]; omega)
        have hpe : entities_exist (entity_spawn s pos 10 rng) = true := by
          simp [entities_exist, hw.2.2, paletteColor_alpha]
        rw [hpe, hcnt]
        simp
      · have hfr := entity_spawn_frame s pos 10 rng hof 0
          (Or.inl (by omega))
        have hpe : entities_exist (entity_spawn s pos 10 rng)
            = entities_exist s := by
          simp [entities_exist, hfr.2.2]
        have hTrue : entities_exist s = true :=
          hprobe.mpr (Nat.pos_of_ne_zero hc0)
        rw [hpe, hTrue, hcnt]
        simp
  | destroy =>
      show ServerInv (if entities_exist s then
        entity_destroy s (u32sub s.count NET_MAX_ENTITY_SPAWN) else s)
      simp only [ServerInv, hM, hQ] at h10 hcap hprobe ⊢
      by_cases hp : entities_exist s = true
      · rw [if_pos hp]
        have hpos : 0 < s.count := hprobe.mp hp
        have h10le : (10 : Nat) ≤ s.count := by omega
        have hsub : u32sub s.count 10 = s.count - 10 := by
          simp only [u32sub, hU]
          omega
        rw [hsub]
        have hcnt : (entity_destroy s (s.count - 10)).count = s.count - 10 := rfl
        refine ⟨by rw [hcnt]; omega, by rw [hcnt]; omega, ?_⟩
        rw [hcnt]
        by_cases hz : s.count - 10 = 0
        · have hfalse : entities_exist
              (entity_destroy s (s.count - 10)) = false := by
            simp [entities_exist, entity_destroy, upd, hz]
          rw [hfalse, hz]
          simp
        · have hsame : entities_exist (entity_destroy s (s.count - 10))
              = entities_exist s := by
            simp [entities_exist, entity_destroy, upd, Ne.symm hz]
          rw [hsame, hp]
          simp
          omega
      · rw [if_neg hp]
        exact ⟨h10, hcap, hprobe⟩

/-- The invariant holds of the initial zeroed store. -/
theorem server_init_inv : ServerInv server_init := by
  refine ⟨rfl, by norm_num [server_init, NET_MAX_ENTITIES], ?_⟩
  simp [entities_exist, server_init]

/-- The invariant holds of every reachable server state. -/
theorem server_run_inv (ops : List ServerOp) : ServerInv (server_run ops) := by
  rw [server_run]
  have h : ∀ s, ServerInv s → ServerInv (ops.foldl server_step s) := by
    induction ops with
    | nil => intro s hs; exact hs
    | cons op rest ih =>
        intro s hs
        exact ih (server_step s op) (server_step_inv s op hs)
  exact h server_init server_init_inv

/-- C10: every server state reachable by spawn/destroy operations from
    the initial zeroed store has a count that is a multiple of the batch
    size 10 and at most 100000, with the existence probe true exactly
    when the count is positive; consequently, whenever the destroy
    trigger fires (probe true), the uint32 computation
    `entity - NET_MAX_ENTITY_SPAWN` equals the mathematical
    `count - 10` — it never wraps below zero. -/
theorem C10_reachable_invariant (ops : List ServerOp) :
    ServerInv (server_run ops) ∧
    (entities_exist (server_run ops) = true →
      NET_MAX_ENTITY_SPAWN ≤ (server_run ops).count ∧
      u32sub (server_run ops).count NET_MAX_ENTITY_SPAWN
        = (server_run ops).count - NET_MAX_ENTITY_SPAWN) := by
  obtain ⟨hM, hQ, hU⟩ := const_values
  obtain ⟨h10, hcap, hprobe⟩ := server_run_inv ops
  refine ⟨⟨h10, hcap, hprobe⟩, fun hp => ?_⟩
  rw [hM] at hcap
  rw [hQ] at h10 ⊢
  have hpos : 0 < (server_run ops).count := hprobe.mp hp
  have h10le : (10 : Nat) ≤ (server_run ops).count := by omega
  refine ⟨h10le, ?_⟩
  simp only [u32sub, hU]
  omega

/-- C10 witness: after one spawn batch the probe is true, the invariant
    holds, and the destroy-side subtraction does not wrap. -/
theorem C10_reachable_invariant_witness :
    ServerInv (server_run [ServerOp.spawn (100, 100) rng0]) ∧
    (NET_MAX_ENTITY_SPAWN ≤ (server_run [ServerOp.spawn (100, 100) rng0]).count ∧
      u32sub (server_run [ServerOp.spawn (100, 100) rng0]).count NET_MAX_ENTITY_SPAWN
        = (server_run [ServerOp.spawn (100, 100) rng0]).count - NET_MAX_ENTITY_SPAWN) :=
  ⟨(C10_reachable_invariant [ServerOp.spawn (100, 100) rng0]).1,
   (C10_reachable_invariant [ServerOp.spawn (100, 100) rng0]).2 (by decide)⟩

-- Spawn message accounting (C1)

/-- The Spawn payload broadcast for entity `i` of the scenario batch
    spawned at (100, 100): origin position, rng-derived velocity, and the
    rng-selected palette color's r, g, b bytes. -/
def scenario_spawn_msg (rng : Rng) (i : Nat) : SpawnMsg :=
  { id := i
    pos := (100, 100)
    vel := velOf (rng i)
    r := (paletteColor (rng i).2.2).r
    g := (paletteColor (rng i).2.2).g
    b := (paletteColor (rng i).2.2).b }

/-- C1 (amended): after the scenario batch of 10 is spawned at
    (100, 100) from the empty store, the count is 10, but both the
    late-join snapshot and the post-spawn broadcast consist of 11 Spawn
    messages, not 10: one per active entity (ids 0–9, each carrying
    position (100, 100) and a palette color) plus one extra message whose
    id is the current count 10 and which carries the contents of the
    first unused slot (all zeros). -/
theorem C1_spawn_messages (rng : Rng) :
    (server_run [ServerOp.spawn (100, 100) rng]).count = 10 ∧
    snapshot_messages (server_run [ServerOp.spawn (100, 100) rng])
      = (List.range 10).map (scenario_spawn_msg rng)
        ++ [{ id := 10, pos := (0, 0), vel := (0, 0), r := 0, g := 0, b := 0 }] ∧
    (snapshot_messages (server_run [ServerOp.spawn (100, 100) rng])).length = 11 ∧
    spawn_broadcast_messages (server_run [ServerOp.spawn (100, 100) rng])
      = snapshot_messages (server_run [ServerOp.spawn (100, 100) rng]) := by
  obtain ⟨hM, hQ, hU⟩ := const_values
  have hrun : server_run [ServerOp.spawn (100, 100) rng]
      = entity_spawn server_init (100, 100) 10 rng := rfl
  have hof : server_init.count + 10 < U32_MOD := by
    rw [hU]; norm_num [server_init]
  have hcnt : (entity_spawn server_init (100, 100) 10 rng).count = 10 := by
    rw [entity_spawn_count server_init (100, 100) 10 rng
      (by rw [hM]; norm_num [server_init]) hof]
    rw [hM]
    norm_num [server_init]
  have hwr : ∀ j, j < 10 →
      (entity_spawn server_init (100, 100) 10 rng).position j = (100, 100) ∧
      (entity_spawn server_init (100, 100) 10 rng).speed j = velOf (rng j) ∧
      (entity_spawn server_init (100, 100) 10 rng).color j
        = paletteColor (rng j).2.2 := by
    intro j hj
    exact entity_spawn_written server_init (100, 100) 10 rng hof j
      (Nat.zero_le j) (by simpa [server_init] using hj) (by rw [hM]; omega)
  have hfr := entity_spawn_frame server_init (100, 100) 10 rng hof 10
    (Or.inr (by norm_num [server_init]))
  have hprobe : entities_exist (entity_spawn server_init (100, 100) 10 rng)
      = true := by
    simp [entities_exist, (hwr 0 (by norm_num)).2.2, paletteColor_alpha]
  have hmsg10 : spawn_message (entity_spawn server_init (100, 100) 10 rng) 10
      = { id := 10, pos := (0, 0), vel := (0, 0), r := 0, g := 0, b := 0 } := by
    have e1 : server_init.position 10 = (0, 0) := rfl
    have e2 : server_init.speed 10 = (0, 0) := rfl
    have e3 : server_init.color 10 = ⟨0, 0, 0, 0⟩ := rfl
    simp [spawn_message, hfr.1, hfr.2.1, hfr.2.2, e1, e2, e3]
  have hsnap : snapshot_messages (entity_spawn server_init (100, 100) 10 rng)
      = (List.range 11).map
          (spawn_message (entity_spawn server_init (100, 100) 10 rng)) := by
    rw [snapshot_messages, if_pos hprobe, hcnt]
  have hmap : (List.range 10).map
        (spawn_message (entity_spawn server_init (100, 100) 10 rng))
      = (List.range 10).map (scenario_spawn_msg rng) := by
    apply List.map_congr_left
    intro i hi
    obtain ⟨h1, h2, h3⟩ := hwr i (List.mem_range.mp hi)
    simp [spawn_message, scenario_spawn_msg, h1, h2, h3]
  have hexpl : snapshot_messages (entity_spawn server_init (100, 100) 10 rng)
      = (List.range 10).map (scenario_spawn_msg rng)
        ++ [{ id := 10, pos := (0, 0), vel := (0, 0), r := 0, g := 0, b := 0 }] := by
    rw [hsnap, List.range_succ, List.map_append, hmap]
    simp [hmsg10]
  refine ⟨by rw [hrun]; exact hcnt, by rw [hrun]; exact hexpl, ?_, ?_⟩
  · rw [hrun, hexpl]
    simp
  · have hzero : u32sub 10 NET_MAX_ENTITY_SPAWN = 0 := by
      rw [hQ]
      simp only [u32sub, hU]
    rw [hrun, spawn_broadcast_messages, hcnt, hzero, if_pos (by norm_num)]
    rw [hsnap]
    norm_num
    rw [← List.range_eq_range']

/-- C1 counterexample to the claim as stated: in the scenario (batch of
    10 spawned at (100, 100) from empty, then a peer connects), the
    snapshot contains 11 Spawn messages, not 10, and includes a message
    with id 10. -/
theorem C1_counterexample :
    (snapshot_messages (server_run [ServerOp.spawn (100, 100) rng0])).length = 11 ∧
    ¬((snapshot_messages (server_run [ServerOp.spawn (100, 100) rng0])).length = 10) ∧
    10 ∈ (snapshot_messages (server_run [ServerOp.spawn (100, 100) rng0])).map
      SpawnMsg.id := by
  refine ⟨by decide, by decide, by decide⟩

end NetDynamics
